import Mathlib

/-!
Verification of the Nomad simulator core (simulator harness and metrics
reconciliation engine), shallowly embedded from the Go sources in
`command/simulator/`.  Go maps are embedded as association lists (map
iteration order, which Go leaves unspecified, is fixed to list order;
nothing proved below depends on that order beyond it being some order),
Go `int`/`int64` as `Int`, and the harness's `uint64` version counter as a
`Nat` reduced modulo `2 ^ 64` where it is incremented.  Functions that can
panic (`noErr` on lookup failure) are embedded as `Option`-valued
functions, `none` standing for the panic.
-/

namespace NomadSim

/-- SimResources is the quadruple of scalar capacities used by the
simulator for totals, reserved amounts and availability
(from `simulator_structs.go`, type `SimResources`). -/
structure SimResources where
  CPU : Int
  MemoryMB : Int
  DiskMB : Int
  IOPS : Int
deriving Repr, DecidableEq

/-- Resources of a node or an allocation
(from `nomad/structs`, the four fields the simulator reads). -/
structure Resources where
  CPU : Int
  MemoryMB : Int
  DiskMB : Int
  IOPS : Int
deriving Repr, DecidableEq

/-- A task group: a name, unique within its job, and a desired count
(from `nomad/structs.TaskGroup`, the two fields the simulator reads). -/
structure TaskGroup where
  Name : String
  Count : Int
deriving Repr, DecidableEq

/-- A job: identity, placement data, a type selecting the scheduler
variant, and its task groups (from `nomad/structs.Job`, the fields the
simulator reads). -/
structure Job where
  ID : String
  Region : String
  Name : String
  JobType : String
  Priority : Int
  Datacenters : List String
  TaskGroups : List TaskGroup
deriving Repr, DecidableEq

/-- Job type constant `structs.JobTypeSystem`. -/
def JobTypeSystem : String := "system"

/-- Job type constant `structs.JobTypeBatch`. -/
def JobTypeBatch : String := "batch"

/-- Job type constant `structs.JobTypeService`. -/
def JobTypeService : String := "service"

/-- Per-allocation metrics carried by an allocation; the simulator reads
only the placement time (from `nomad/structs.AllocMetric`). -/
structure AllocMetric where
  AllocationTime : Int
deriving Repr, DecidableEq

/-- An allocation: the binding of one task-group replica to one node
(from `nomad/structs.Allocation`, the fields the simulator reads).  Failed
allocations carry their parent `Job` in the `Job` field. -/
structure Allocation where
  NodeID : String
  JobID : String
  TaskGroup : String
  Job : NomadSim.Job
  Resources : NomadSim.Resources
  Metrics : AllocMetric
  DesiredDescription : String
  DesiredStatus : String
deriving Repr, DecidableEq

/-- A node (from `nomad/structs.Node`, the fields the simulator reads). -/
structure Node where
  ID : String
  Datacenter : String
  Name : String
  Attributes : List (String × String)
  Resources : NomadSim.Resources
  Reserved : NomadSim.Resources
deriving Repr, DecidableEq

/-- An evaluation (from `nomad/structs.Evaluation`, the fields the
simulator reads). -/
structure Evaluation where
  ID : String
  Priority : Int
  TriggeredBy : String
  JobID : String
deriving Repr, DecidableEq

/-- A plan: the scheduler's output for one evaluation
(from `nomad/structs.Plan`).  `NodeAllocation` and `NodeUpdate` are Go
maps from node ID to allocation list, embedded as association lists. -/
structure Plan where
  EvalID : String
  NodeUpdate : List (String × List Allocation)
  NodeAllocation : List (String × List Allocation)
  FailedAllocs : List Allocation
deriving Repr, DecidableEq

/-- A plan result (from `nomad/structs.PlanResult`, the fields the
harness writes). -/
structure PlanResult where
  NodeUpdate : List (String × List Allocation)
  NodeAllocation : List (String × List Allocation)
  RefreshIndex : Nat
  AllocIndex : Nat
deriving Repr, DecidableEq

/-- Modelled from the spec: the Cluster State Container
(`nomad/state.StateStore`, an external collaborator whose source is not
part of this repository).  Per spec section 4.1 it is a versioned store of
nodes, jobs and allocations with point queries by ID; allocations are
recorded together with the version under which they were upserted.
`upsertFails` abstracts the unspecified store-level failure condition of
spec section 4.2 ("store-level upsert failures propagate as the call's
error"). -/
structure StateStore where
  nodes : List Node
  jobs : List Job
  allocs : List (Nat × Allocation)
  upsertFails : Nat → List Allocation → Bool

/-- Modelled from the spec: `NodeByID(id) -> node, error(NotFound)`;
`none` is the not-found error. -/
def StateStore.NodeByID (s : StateStore) (id : String) : Option Node :=
  s.nodes.find? (fun n => n.ID = id)

/-- Modelled from the spec: `JobByID(id) -> job, error(NotFound)`;
`none` is the not-found error. -/
def StateStore.JobByID (s : StateStore) (id : String) : Option Job :=
  s.jobs.find? (fun j => j.ID = id)

/-- Modelled from the spec: `AllocationsByNode(id) -> allocation list`,
the allocations currently recorded against one node. -/
def StateStore.AllocsByNode (s : StateStore) (id : String) : List Allocation :=
  (s.allocs.filter (fun va => va.2.NodeID = id)).map Prod.snd

/-- Modelled from the spec: `UpsertAllocations(version, allocations)`
records every given allocation under the supplied version, or fails
recording none ("either all allocations in it are upserted or the call
fails and none are"). -/
def StateStore.UpsertAllocs (s : StateStore) (index : Nat)
    (allocList : List Allocation) : Except String StateStore :=
  if s.upsertFails index allocList then
    Except.error "upsert failed"
  else
    Except.ok { s with allocs := s.allocs ++ allocList.map (fun a => (index, a)) }

/-- Modelled from the spec: a fresh, empty in-memory state store
(`state.NewStateStore`); its upserts do not fail of themselves. -/
def NewStateStore : StateStore :=
  { nodes := [], jobs := [], allocs := [], upsertFails := fun _ _ => false }

/-- Calculate the resources a node has left available: base resources
minus reserved, minus the consumption of every allocation recorded
against the node (from `simulator_structs.go`, function `getAvailable`). -/
def getAvailable (node : Node) (state : StateStore) : SimResources :=
  let available : SimResources :=
    { CPU := node.Resources.CPU - node.Reserved.CPU
      MemoryMB := node.Resources.MemoryMB - node.Reserved.MemoryMB
      DiskMB := node.Resources.DiskMB - node.Reserved.DiskMB
      IOPS := node.Resources.IOPS - node.Reserved.IOPS }
  (state.AllocsByNode node.ID).foldl
    (fun avail allocation =>
      { CPU := avail.CPU - allocation.Resources.CPU
        MemoryMB := avail.MemoryMB - allocation.Resources.MemoryMB
        DiskMB := avail.DiskMB - allocation.Resources.DiskMB
        IOPS := avail.IOPS - allocation.Resources.IOPS })
    available

theorem getAvailable_foldl (l : List Allocation) (init : SimResources) :
    l.foldl
      (fun avail allocation =>
        { CPU := avail.CPU - allocation.Resources.CPU
          MemoryMB := avail.MemoryMB - allocation.Resources.MemoryMB
          DiskMB := avail.DiskMB - allocation.Resources.DiskMB
          IOPS := avail.IOPS - allocation.Resources.IOPS })
      init =
    { CPU := init.CPU - (l.map (fun a => a.Resources.CPU)).sum
      MemoryMB := init.MemoryMB - (l.map (fun a => a.Resources.MemoryMB)).sum
      DiskMB := init.DiskMB - (l.map (fun a => a.Resources.DiskMB)).sum
      IOPS := init.IOPS - (l.map (fun a => a.Resources.IOPS)).sum } := by
  induction l generalizing init with
  | nil => simp
  | cons a l ih =>
      simp only [List.foldl_cons, List.map_cons, List.sum_cons, ih]
      congr 1 <;> ring

/-- C3: for every node, `getAvailable` returns, in each of the four
capacity dimensions, the node's total resources minus its reserved
resources minus the sum of the resources of all allocations currently
recorded against that node in the state container; with zero recorded
allocations the result is exactly total minus reserved. -/
theorem getAvailable_correct (node : Node) (state : StateStore) :
    ((getAvailable node state).CPU =
        node.Resources.CPU - node.Reserved.CPU -
          ((state.AllocsByNode node.ID).map (fun a => a.Resources.CPU)).sum ∧
      (getAvailable node state).MemoryMB =
        node.Resources.MemoryMB - node.Reserved.MemoryMB -
          ((state.AllocsByNode node.ID).map (fun a => a.Resources.MemoryMB)).sum ∧
      (getAvailable node state).DiskMB =
        node.Resources.DiskMB - node.Reserved.DiskMB -
          ((state.AllocsByNode node.ID).map (fun a => a.Resources.DiskMB)).sum ∧
      (getAvailable node state).IOPS =
        node.Resources.IOPS - node.Reserved.IOPS -
          ((state.AllocsByNode node.ID).map (fun a => a.Resources.IOPS)).sum) ∧
    (state.AllocsByNode node.ID = [] →
      getAvailable node state =
        { CPU := node.Resources.CPU - node.Reserved.CPU
          MemoryMB := node.Resources.MemoryMB - node.Reserved.MemoryMB
          DiskMB := node.Resources.DiskMB - node.Reserved.DiskMB
          IOPS := node.Resources.IOPS - node.Reserved.IOPS }) := by
  constructor
  · unfold getAvailable
    rw [getAvailable_foldl]
    refine ⟨rfl, rfl, rfl, rfl⟩
  · intro h
    unfold getAvailable
    rw [h]
    rfl

/-- Relevant metrics of a job (from `simulator_structs.go`, type
`JobMetrics`); the two timestamps are left at the Go zero value `0` by
`ParseJobMetrics` and only assigned inside `getMetrics`. -/
structure JobMetrics where
  ID : String
  Datacenters : List String
  Region : String
  Name : String
  JobType : String
  TaskGroups : List String
  StartTimestamp : Int
  FinalTimestamp : Int
deriving Repr, DecidableEq

/-- Relevant metrics of an allocation (from `simulator_structs.go`, type
`AllocMetrics`). -/
structure AllocMetrics where
  NodeID : String
  JobID : String
  TaskGroup : String
  AllocationTime : Int
  DesiredDescription : String
  DesiredStatus : String
  Resources : SimResources
deriving Repr, DecidableEq

/-- Usage update of a single node (from `simulator_structs.go`, type
`NodeUsageChange`). -/
structure NodeUsageChange where
  ID : String
  Available : SimResources
deriving Repr, DecidableEq

/-- The metrics of the cluster for one iteration, the processing of one
job (from `simulator_structs.go`, type `JobEvaluationMetrics`). -/
structure JobEvaluationMetrics where
  JobMetrics : NomadSim.JobMetrics
  SuccessfulAllocsMetrics : List AllocMetrics
  FailedAllocsMetrics : List AllocMetrics
  NodeUsageChanges : List NodeUsageChange
deriving Repr, DecidableEq

/-- The state of the cluster in a single iteration (from
`simulator_structs.go`, type `SimSnapshot`). -/
structure SimSnapshot where
  Eval : Evaluation
  Plans : List Plan
  State : StateStore
  NodeIDs : List String
  Time : Int

/-- Project the relevant job information (from `simulator_structs.go`,
function `ParseJobMetrics`); the timestamp fields are not assigned there,
so they carry the Go zero value. -/
def ParseJobMetrics (job : Job) : JobMetrics :=
  { ID := job.ID
    Region := job.Region
    Datacenters := job.Datacenters
    Name := job.Name
    JobType := job.JobType
    TaskGroups := job.TaskGroups.map (fun taskGroup => taskGroup.Name)
    StartTimestamp := 0
    FinalTimestamp := 0 }

/-- Project the relevant allocation information (from
`simulator_structs.go`, function `ParseAllocMetrics`). -/
def ParseAllocMetrics (alloc : Allocation) : AllocMetrics :=
  { NodeID := alloc.NodeID
    JobID := alloc.JobID
    Resources :=
      { CPU := alloc.Resources.CPU
        MemoryMB := alloc.Resources.MemoryMB
        DiskMB := alloc.Resources.DiskMB
        IOPS := alloc.Resources.IOPS }
    TaskGroup := alloc.TaskGroup
    AllocationTime := alloc.Metrics.AllocationTime
    DesiredDescription := alloc.DesiredDescription
    DesiredStatus := alloc.DesiredStatus }

/-- Successful allocations of one plan: every allocation across all
nodes of the plan's `NodeAllocation` map (the inner double loop of
`getMetrics` in `simulator_metrics.go`). -/
def planSuccessAllocs (plan : Plan) : List Allocation :=
  (plan.NodeAllocation.map Prod.snd).flatten

/-- Effective desired count of a task group: the declared count, and for
system scheduling multiplied by the total number of nodes
(from `simulator_metrics.go`, lines 118 to 123 of `getMetrics`). -/
def effectiveCount (job : Job) (taskGroup : TaskGroup) (numNodes : Nat) : Int :=
  if job.JobType = JobTypeSystem then taskGroup.Count * numNodes else taskGroup.Count

/-- Highest allocation time amongst a plan's successful allocations,
starting from the sentinel `-1` (from `simulator_metrics.go`, lines 69
to 83 of `getMetrics`). -/
def planMaxAllocTime (plan : Plan) : Int :=
  ((planSuccessAllocs plan).map ParseAllocMetrics).foldl
    (fun maxAllocTime parsedAlloc =>
      if maxAllocTime < parsedAlloc.AllocationTime then parsedAlloc.AllocationTime
      else maxAllocTime)
    (-1)

/-- Failure-count correction for one failed allocation of a plan
(from `simulator_metrics.go`, lines 103 to 154 of `getMetrics`): find the
failed task group by name among the parent job's task groups; with an
effective desired count of 1 emit the record as is, otherwise emit one
copy per replica that did not place successfully in this same plan. -/
def processFailedAlloc (plan : Plan) (numNodes : Nat)
    (failedAlloc : Allocation) : List AllocMetrics :=
  (failedAlloc.Job.TaskGroups.map (fun taskGroup =>
    if taskGroup.Name = failedAlloc.TaskGroup then
      let totalCount := effectiveCount failedAlloc.Job taskGroup numNodes
      if totalCount = 1 then
        [ParseAllocMetrics failedAlloc]
      else
        let successCount := ((planSuccessAllocs plan).filter
          (fun alloc => alloc.TaskGroup = failedAlloc.TaskGroup)).length
        List.replicate (totalCount - (successCount : Int)).toNat
          (ParseAllocMetrics failedAlloc)
    else [])).flatten

/-- Accumulator of the plan loop of `getMetrics`: the successful and
failed metrics lists and the job metrics record being built. -/
structure MetricsAcc where
  successfulAllocsMetrics : List AllocMetrics
  failedAllocsMetrics : List AllocMetrics
  jobMetrics : JobMetrics

/-- One iteration of the plan loop of `getMetrics`
(from `simulator_metrics.go`, lines 62 to 155): plans whose evaluation ID
differs from the snapshot's are skipped; a matching plan appends its
successful allocations, overwrites the job's start and final timestamps,
and appends the corrected failed-allocation records. -/
def processPlan (evalID : String) (numNodes : Nat) (startTimestamp : Int)
    (acc : MetricsAcc) (plan : Plan) : MetricsAcc :=
  if plan.EvalID ≠ evalID then acc
  else
    let parsedAllocs := (planSuccessAllocs plan).map ParseAllocMetrics
    let maxAllocTime := planMaxAllocTime plan
    { successfulAllocsMetrics := acc.successfulAllocsMetrics ++ parsedAllocs
      failedAllocsMetrics := acc.failedAllocsMetrics ++
        (plan.FailedAllocs.map (processFailedAlloc plan numNodes)).flatten
      jobMetrics := { acc.jobMetrics with
        StartTimestamp := startTimestamp
        FinalTimestamp :=
          if maxAllocTime ≠ -1 then startTimestamp + maxAllocTime else -1 } }

/-- Uniquely record a node ID, keeping the first occurrence (the
`changedNodes` Go map of `getMetrics`; Go map iteration order is
unspecified, fixed here to first-insertion order). -/
def insertUniqueID (ids : List String) (id : String) : List String :=
  if id ∈ ids then ids else ids ++ [id]

/-- The node IDs touched by the given successful allocations,
deduplicated (from `simulator_metrics.go`, lines 157 to 162). -/
def changedNodeIDs (allocs : List AllocMetrics) : List String :=
  allocs.foldl (fun ids alloc => insertUniqueID ids alloc.NodeID) []

/-- For each changed node, look it up and record its currently available
resources (from `simulator_metrics.go`, lines 164 to 180); a failed node
lookup makes `noErr` panic, embedded as `none`. -/
def buildUsageChanges (state : StateStore) : List String → Option (List NodeUsageChange)
  | [] => some []
  | id :: ids =>
    match state.NodeByID id with
    | none => none
    | some node =>
      (buildUsageChanges state ids).map
        (fun rest => { ID := node.ID, Available := getAvailable node state } :: rest)

/-- The plan loop of `getMetrics` (from `simulator_metrics.go`, lines 62
to 155), folded over the snapshot's plans, starting from empty metrics
lists and the projected job metrics of the evaluated job. -/
def metricsLoop (simSnapshot : SimSnapshot) (evaluatedJob : Job) : MetricsAcc :=
  simSnapshot.Plans.foldl
    (processPlan simSnapshot.Eval.ID simSnapshot.NodeIDs.length simSnapshot.Time)
    { successfulAllocsMetrics := []
      failedAllocsMetrics := []
      jobMetrics := ParseJobMetrics evaluatedJob }

/-- Metrics of cluster allocations after the processing of one job
(from `simulator_metrics.go`, function `getMetrics`); `none` embeds the
`noErr` panic on a failed job or node lookup. -/
def getMetrics (simSnapshot : SimSnapshot) : Option JobEvaluationMetrics :=
  (simSnapshot.State.JobByID simSnapshot.Eval.JobID).bind (fun evaluatedJob =>
    let acc := metricsLoop simSnapshot evaluatedJob
    (buildUsageChanges simSnapshot.State
        (changedNodeIDs acc.successfulAllocsMetrics)).bind
      (fun nodeUsageChanges =>
        some { JobMetrics := acc.jobMetrics
               NodeUsageChanges := nodeUsageChanges
               FailedAllocsMetrics := acc.failedAllocsMetrics
               SuccessfulAllocsMetrics := acc.successfulAllocsMetrics }))

/-- The plans of a snapshot whose evaluation ID back-reference equals the
snapshot's evaluation ID (the plans `getMetrics` does not skip). -/
def matchedPlans (s : SimSnapshot) : List Plan :=
  s.Plans.filter (fun plan => plan.EvalID = s.Eval.ID)

/-- A custom planner that a harness may delegate to
(`scheduler.Planner`); its responses are abstract, and the simulator
never installs one. -/
structure Planner where
  submitPlanFn : Plan → PlanResult × Option String
  updateEvalFn : Evaluation → Option String
  createEvalFn : Evaluation → Option String

/-- The simulator harness (from `simulator_harness.go`, type
`SimHarness`): the state store, an optional custom planner, the plan and
evaluation histories, and the version counter.  The Go locks serialize
access; the embedding passes the harness state explicitly, so every
operation is already atomic. -/
structure SimHarness where
  State : StateStore
  Planner : Option NomadSim.Planner
  Plans : List Plan
  Evals : List Evaluation
  CreateEvals : List Evaluation
  nextIndex : Nat

/-- A fresh simulator harness over a fresh state store, with the version
counter at 1 (from `simulator_harness.go`, function `NewSimHarness`). -/
def NewSimHarness : SimHarness :=
  { State := NewStateStore
    Planner := none
    Plans := []
    Evals := []
    CreateEvals := []
    nextIndex := 1 }

/-- Return the next index and advance the `uint64` counter (from
`simulator_harness.go`, function `NextIndex`); the increment wraps at
`2 ^ 64` as the Go `uint64` does. -/
def SimHarness.NextIndex (h : SimHarness) : Nat × SimHarness :=
  (h.nextIndex, { h with nextIndex := (h.nextIndex + 1) % 2 ^ 64 })

/-- Flatten a plan's evicts, allocations and failed allocations into one
list (from `simulator_harness.go`, lines 97 to 105 of `SubmitPlan`). -/
def flattenPlanAllocs (plan : Plan) : List Allocation :=
  (plan.NodeUpdate.map Prod.snd).flatten ++
    (plan.NodeAllocation.map Prod.snd).flatten ++ plan.FailedAllocs

/-- Handle plan submission (from `simulator_harness.go`, function
`SubmitPlan`): append the plan to the history; with a custom planner
delegate to it; otherwise obtain a fresh index, build the result with
that index as `AllocIndex`, flatten the plan's allocations and upsert
them under that index.  The returned triple is the Go
`(*PlanResult, State, error)` with the harness state made explicit and
`Option String` as the error. -/
def SimHarness.SubmitPlan (h : SimHarness) (plan : Plan) :
    PlanResult × SimHarness × Option String :=
  let h1 := { h with Plans := h.Plans ++ [plan] }
  match h1.Planner with
  | some custom =>
    let response := custom.submitPlanFn plan
    (response.1, h1, response.2)
  | none =>
    let indexed := h1.NextIndex
    let index := indexed.1
    let h2 := indexed.2
    let result : PlanResult :=
      { NodeUpdate := plan.NodeUpdate
        NodeAllocation := plan.NodeAllocation
        RefreshIndex := 0
        AllocIndex := index }
    match h2.State.UpsertAllocs index (flattenPlanAllocs plan) with
    | Except.ok newState => (result, { h2 with State := newState }, none)
    | Except.error e => (result, h2, some e)

/-- Record an evaluation update (from `simulator_harness.go`, function
`UpdateEval`). -/
def SimHarness.UpdateEval (h : SimHarness) (eval : Evaluation) :
    SimHarness × Option String :=
  let h1 := { h with Evals := h.Evals ++ [eval] }
  match h1.Planner with
  | some custom => (h1, custom.updateEvalFn eval)
  | none => (h1, none)

/-- Record an evaluation creation (from `simulator_harness.go`, function
`CreateEval`). -/
def SimHarness.CreateEval (h : SimHarness) (eval : Evaluation) :
    SimHarness × Option String :=
  let h1 := { h with CreateEvals := h.CreateEvals ++ [eval] }
  match h1.Planner with
  | some custom => (h1, custom.createEvalFn eval)
  | none => (h1, none)

/-- Run `NextIndex` the given number of times, collecting the returned
indices in call order. -/
def nextIndexRun (h : SimHarness) : Nat → List Nat × SimHarness
  | 0 => ([], h)
  | k + 1 =>
    let first := h.NextIndex
    let rest := nextIndexRun first.2 k
    (first.1 :: rest.1, rest.2)

/-- Stated from claim C7's words, for comparison with the source's
`flattenPlanAllocs`: the plan's per-node allocations plus its failed
allocations, with no other contribution. -/
def claimFlattenedAllocs (plan : Plan) : List Allocation :=
  (plan.NodeAllocation.map Prod.snd).flatten ++ plan.FailedAllocs

section ListLemmas

variable {α β : Type}

theorem flatten_map_eq_nil (L : List α) (f : α → List β)
    (h : ∀ a ∈ L, f a = []) : (L.map f).flatten = [] := by
  induction L with
  | nil => rfl
  | cons a L ih =>
      have ha := h a (by simp)
      have hL : ∀ x ∈ L, f x = [] := fun x hx => h x (by simp [hx])
      simp [ha, ih hL]

theorem flatten_map_single (L : List α) (P : α → Bool) (f : α → List β) (x : α)
    (hL : L.filter P = [x]) (h0 : ∀ a ∈ L, ¬ P a = true → f a = []) :
    (L.map f).flatten = f x := by
  induction L with
  | nil => simp at hL
  | cons a L ih =>
      by_cases h : P a = true
      · rw [List.filter_cons_of_pos h] at hL
        simp only [List.cons.injEq] at hL
        obtain ⟨rfl, hnil⟩ := hL
        have hrest : ∀ b ∈ L, f b = [] := by
          intro b hb
          refine h0 b (by simp [hb]) ?_
          have := List.filter_eq_nil_iff.mp hnil b hb
          simpa using this
        simp [flatten_map_eq_nil L f hrest]
      · rw [List.filter_cons_of_neg h] at hL
        rw [List.map_cons, List.flatten_cons, h0 a (by simp) h, List.nil_append]
        exact ih hL fun b hb hPb => h0 b (by simp [hb]) hPb

theorem sum_map_single (L : List α) (P : α → Bool) (w : α → Nat) (x : α)
    (hL : L.filter P = [x]) (h0 : ∀ a ∈ L, ¬ P a = true → w a = 0) :
    (L.map w).sum = w x := by
  induction L with
  | nil => simp at hL
  | cons a L ih =>
      by_cases h : P a = true
      · rw [List.filter_cons_of_pos h] at hL
        simp only [List.cons.injEq] at hL
        obtain ⟨rfl, hnil⟩ := hL
        have hrest : ∀ b ∈ L, w b = 0 := by
          intro b hb
          refine h0 b (by simp [hb]) ?_
          have := List.filter_eq_nil_iff.mp hnil b hb
          simpa using this
        have : (L.map w).sum = 0 := by
          refine List.sum_eq_zero ?_
          intro y hy
          obtain ⟨b, hb, rfl⟩ := List.mem_map.mp hy
          exact hrest b hb
        simp [this]
      · rw [List.filter_cons_of_neg h] at hL
        rw [List.map_cons, List.sum_cons, h0 a (by simp) h, Nat.zero_add]
        exact ih hL fun b hb hPb => h0 b (by simp [hb]) hPb

theorem le_foldl_max (l : List Int) (i : Int) : i ≤ l.foldl max i := by
  induction l generalizing i with
  | nil => exact le_refl i
  | cons a l ih => exact le_trans (le_max_left i a) (ih (max i a))

theorem mem_le_foldl_max (l : List Int) (i x : Int) (h : x ∈ l) :
    x ≤ l.foldl max i := by
  induction l generalizing i with
  | nil => simp at h
  | cons a l ih =>
      rcases List.mem_cons.mp h with rfl | hx
      · exact le_trans (le_max_right i x) (le_foldl_max l (max i x))
      · exact ih (max i a) hx

theorem foldl_max_cases (l : List Int) (i : Int) :
    l.foldl max i = i ∨ l.foldl max i ∈ l := by
  induction l generalizing i with
  | nil => exact Or.inl rfl
  | cons a l ih =>
      rcases ih (max i a) with h | h
      · rcases max_choice i a with hm | hm
        · exact Or.inl (by rw [List.foldl_cons, h, hm])
        · exact Or.inr (by rw [List.foldl_cons, h, hm]; exact List.mem_cons_self a l)
      · exact Or.inr (List.mem_cons_of_mem a h)

end ListLemmas

theorem planMaxAllocTime_eq_foldl_max (plan : Plan) :
    planMaxAllocTime plan =
      ((planSuccessAllocs plan).map
        (fun alloc => alloc.Metrics.AllocationTime)).foldl max (-1) := by
  unfold planMaxAllocTime
  rw [List.foldl_map, List.foldl_map]
  congr 1
  funext maxAllocTime alloc
  show (if maxAllocTime < (ParseAllocMetrics alloc).AllocationTime then
      (ParseAllocMetrics alloc).AllocationTime else maxAllocTime) =
    max maxAllocTime alloc.Metrics.AllocationTime
  have : (ParseAllocMetrics alloc).AllocationTime = alloc.Metrics.AllocationTime := rfl
  rw [this]
  rcases lt_or_le maxAllocTime alloc.Metrics.AllocationTime with h | h
  · rw [if_pos h, max_eq_right (le_of_lt h)]
  · rw [if_neg (not_lt.mpr h), max_eq_left h]

theorem processPlan_skip (e : String) (n : Nat) (t : Int) (acc : MetricsAcc)
    (plan : Plan) (h : ¬ plan.EvalID = e) : processPlan e n t acc plan = acc := by
  simp [processPlan, h]

theorem processPlan_match (e : String) (n : Nat) (t : Int) (acc : MetricsAcc)
    (plan : Plan) (h : plan.EvalID = e) :
    processPlan e n t acc plan =
      { successfulAllocsMetrics := acc.successfulAllocsMetrics ++
          (planSuccessAllocs plan).map ParseAllocMetrics
        failedAllocsMetrics := acc.failedAllocsMetrics ++
          (plan.FailedAllocs.map (processFailedAlloc plan n)).flatten
        jobMetrics := { acc.jobMetrics with
          StartTimestamp := t
          FinalTimestamp :=
            if planMaxAllocTime plan ≠ -1 then t + planMaxAllocTime plan
            else -1 } } := by
  simp [processPlan, h]

theorem foldl_processPlan_filter (e : String) (n : Nat) (t : Int)
    (plans : List Plan) (acc : MetricsAcc) :
    plans.foldl (processPlan e n t) acc =
      (plans.filter (fun plan => plan.EvalID = e)).foldl (processPlan e n t) acc := by
  induction plans generalizing acc with
  | nil => rfl
  | cons p plans ih =>
      by_cases h : p.EvalID = e
      · rw [List.foldl_cons, List.filter_cons_of_pos (by simpa using h),
          List.foldl_cons, ih]
      · rw [List.foldl_cons, processPlan_skip e n t acc p h,
          List.filter_cons_of_neg (by simpa using h), ih]

theorem foldl_processPlan_successes (e : String) (n : Nat) (t : Int)
    (plans : List Plan) (acc : MetricsAcc) (h : ∀ p ∈ plans, p.EvalID = e) :
    (plans.foldl (processPlan e n t) acc).successfulAllocsMetrics =
      acc.successfulAllocsMetrics ++
        (plans.map (fun plan => (planSuccessAllocs plan).map ParseAllocMetrics)).flatten := by
  induction plans generalizing acc with
  | nil => simp
  | cons p plans ih =>
      rw [List.foldl_cons, processPlan_match e n t acc p (h p (by simp)),
        ih _ fun q hq => h q (by simp [hq])]
      simp

theorem foldl_processPlan_failures (e : String) (n : Nat) (t : Int)
    (plans : List Plan) (acc : MetricsAcc) (h : ∀ p ∈ plans, p.EvalID = e) :
    (plans.foldl (processPlan e n t) acc).failedAllocsMetrics =
      acc.failedAllocsMetrics ++
        (plans.map (fun plan =>
          (plan.FailedAllocs.map (processFailedAlloc plan n)).flatten)).flatten := by
  induction plans generalizing acc with
  | nil => simp
  | cons p plans ih =>
      rw [List.foldl_cons, processPlan_match e n t acc p (h p (by simp)),
        ih _ fun q hq => h q (by simp [hq])]
      simp

theorem foldl_processPlan_jobMetrics_concat (e : String) (n : Nat) (t : Int)
    (plans : List Plan) (p : Plan) (acc : MetricsAcc) (hp : p.EvalID = e) :
    ((plans ++ [p]).foldl (processPlan e n t) acc).jobMetrics =
      { ((plans.foldl (processPlan e n t) acc)).jobMetrics with
        StartTimestamp := t
        FinalTimestamp :=
          if planMaxAllocTime p ≠ -1 then t + planMaxAllocTime p else -1 } := by
  rw [List.foldl_append, List.foldl_cons, List.foldl_nil,
    processPlan_match e n t _ p hp]

theorem mem_insertUniqueID (ids : List String) (id x : String) :
    x ∈ insertUniqueID ids id ↔ x ∈ ids ∨ x = id := by
  unfold insertUniqueID
  by_cases h : id ∈ ids
  · rw [if_pos h]
    constructor
    · exact Or.inl
    · rintro (hx | rfl)
      · exact hx
      · exact h
  · rw [if_neg h]
    simp

theorem insertUniqueID_nodup (ids : List String) (id : String) (h : ids.Nodup) :
    (insertUniqueID ids id).Nodup := by
  unfold insertUniqueID
  by_cases hm : id ∈ ids
  · rwa [if_pos hm]
  · rw [if_neg hm]
    refine List.Nodup.append h (List.nodup_singleton id) ?_
    intro x hx hx2
    rw [List.mem_singleton] at hx2
    exact hm (hx2 ▸ hx)

theorem mem_foldl_insertUniqueID (allocs : List AllocMetrics) (ids : List String)
    (x : String) :
    (x ∈ allocs.foldl (fun acc alloc => insertUniqueID acc alloc.NodeID) ids ↔
      x ∈ ids ∨ ∃ a ∈ allocs, a.NodeID = x) := by
  induction allocs generalizing ids with
  | nil => simp
  | cons a allocs ih =>
      rw [List.foldl_cons, ih, mem_insertUniqueID]
      constructor
      · rintro ((hx | rfl) | ⟨b, hb, rfl⟩)
        · exact Or.inl hx
        · exact Or.inr ⟨a, by simp⟩
        · exact Or.inr ⟨b, by simp [hb]⟩
      · rintro (hx | ⟨b, hb, rfl⟩)
        · exact Or.inl (Or.inl hx)
        · rcases List.mem_cons.mp hb with rfl | hb2
          · exact Or.inl (Or.inr rfl)
          · exact Or.inr ⟨b, hb2, rfl⟩

theorem foldl_insertUniqueID_nodup (allocs : List AllocMetrics) (ids : List String)
    (h : ids.Nodup) :
    (allocs.foldl (fun acc alloc => insertUniqueID acc alloc.NodeID) ids).Nodup := by
  induction allocs generalizing ids with
  | nil => exact h
  | cons a allocs ih => exact ih _ (insertUniqueID_nodup ids a.NodeID h)

theorem mem_changedNodeIDs (allocs : List AllocMetrics) (x : String) :
    x ∈ changedNodeIDs allocs ↔ ∃ a ∈ allocs, a.NodeID = x := by
  unfold changedNodeIDs
  rw [mem_foldl_insertUniqueID]
  simp

theorem changedNodeIDs_nodup (allocs : List AllocMetrics) :
    (changedNodeIDs allocs).Nodup :=
  foldl_insertUniqueID_nodup allocs [] List.nodup_nil

theorem buildUsageChanges_some (st : StateStore) (ids : List String)
    (h : ∀ id ∈ ids, (st.NodeByID id).isSome) :
    ∃ l, buildUsageChanges st ids = some l ∧ l.map (fun c => c.ID) = ids := by
  induction ids with
  | nil => exact ⟨[], rfl, rfl⟩
  | cons id ids ih =>
      obtain ⟨node, hnode⟩ := Option.isSome_iff_exists.mp (h id (by simp))
      obtain ⟨l, hl, hmap⟩ := ih fun x hx => h x (by simp [hx])
      refine ⟨{ ID := node.ID, Available := getAvailable node st } :: l, ?_, ?_⟩
      · simp [buildUsageChanges, hnode, hl]
      · have hid : node.ID = id := by
          have hfind : st.nodes.find? (fun n => n.ID = id) = some node := hnode
          have := List.find?_some hfind
          simpa using this
        simp [hid, hmap]

theorem buildUsageChanges_ids (st : StateStore) (ids : List String)
    (l : List NodeUsageChange) (h : buildUsageChanges st ids = some l) :
    l.map (fun c => c.ID) = ids := by
  induction ids generalizing l with
  | nil =>
      unfold buildUsageChanges at h
      cases h
      rfl
  | cons id ids ih =>
      unfold buildUsageChanges at h
      cases hnode : st.NodeByID id with
      | none => rw [hnode] at h; cases h
      | some node =>
          rw [hnode] at h
          cases hrest : buildUsageChanges st ids with
          | none => rw [hrest] at h; cases h
          | some rest =>
              rw [hrest] at h
              cases h
              have hid : node.ID = id := by
                have hfind : st.nodes.find? (fun n => n.ID = id) = some node := hnode
                have := List.find?_some hfind
                simpa using this
              simp [hid, ih rest hrest]

theorem metricsLoop_eq_matched (s : SimSnapshot) (j : Job) :
    metricsLoop s j =
      (matchedPlans s).foldl
        (processPlan s.Eval.ID s.NodeIDs.length s.Time)
        { successfulAllocsMetrics := []
          failedAllocsMetrics := []
          jobMetrics := ParseJobMetrics j } :=
  foldl_processPlan_filter _ _ _ _ _

theorem matchedPlans_all (s : SimSnapshot) :
    ∀ p ∈ matchedPlans s, p.EvalID = s.Eval.ID := by
  intro p hp
  have := List.of_mem_filter hp
  simpa using this

theorem getMetrics_some_elim (s : SimSnapshot) (m : JobEvaluationMetrics)
    (h : getMetrics s = some m) :
    ∃ j, s.State.JobByID s.Eval.JobID = some j ∧
      m.SuccessfulAllocsMetrics = (metricsLoop s j).successfulAllocsMetrics ∧
      m.FailedAllocsMetrics = (metricsLoop s j).failedAllocsMetrics ∧
      m.JobMetrics = (metricsLoop s j).jobMetrics ∧
      buildUsageChanges s.State
          (changedNodeIDs (metricsLoop s j).successfulAllocsMetrics) =
        some m.NodeUsageChanges := by
  unfold getMetrics at h
  cases hj : s.State.JobByID s.Eval.JobID with
  | none => rw [hj] at h; cases h
  | some j =>
      rw [hj, Option.some_bind] at h
      simp only at h
      cases hb : buildUsageChanges s.State
          (changedNodeIDs (metricsLoop s j).successfulAllocsMetrics) with
      | none => rw [hb] at h; cases h
      | some l =>
          rw [hb, Option.some_bind] at h
          cases h
          exact ⟨j, rfl, rfl, rfl, rfl, hb⟩

theorem getMetrics_build (s : SimSnapshot) (j : Job)
    (hj : s.State.JobByID s.Eval.JobID = some j) (l : List NodeUsageChange)
    (hb : buildUsageChanges s.State
        (changedNodeIDs (metricsLoop s j).successfulAllocsMetrics) = some l) :
    getMetrics s =
      some { JobMetrics := (metricsLoop s j).jobMetrics
             NodeUsageChanges := l
             FailedAllocsMetrics := (metricsLoop s j).failedAllocsMetrics
             SuccessfulAllocsMetrics := (metricsLoop s j).successfulAllocsMetrics } := by
  unfold getMetrics
  rw [hj, Option.some_bind]
  simp only
  rw [hb, Option.some_bind]

theorem processFailedAlloc_mem (plan : Plan) (n : Nat) (g : Allocation)
    (r : AllocMetrics) (h : r ∈ processFailedAlloc plan n g) :
    r = ParseAllocMetrics g := by
  unfold processFailedAlloc at h
  rw [List.mem_flatten] at h
  obtain ⟨l, hl, hr⟩ := h
  rw [List.mem_map] at hl
  obtain ⟨tg, _, rfl⟩ := hl
  by_cases hname : tg.Name = g.TaskGroup
  · rw [if_pos hname] at hr
    by_cases hc : effectiveCount g.Job tg n = 1
    · rw [if_pos hc] at hr
      simpa using hr
    · rw [if_neg hc] at hr
      exact List.eq_of_mem_replicate (by simpa using hr)
  · rw [if_neg hname] at hr
    simp at hr

theorem processFailedAlloc_eq (plan : Plan) (n : Nat) (f : Allocation)
    (tg : TaskGroup)
    (htg : f.Job.TaskGroups.filter (fun g => g.Name = f.TaskGroup) = [tg]) :
    processFailedAlloc plan n f =
      List.replicate
        (if effectiveCount f.Job tg n = 1 then 1
         else (effectiveCount f.Job tg n -
           (((planSuccessAllocs plan).filter
             (fun alloc => alloc.TaskGroup = f.TaskGroup)).length : Int)).toNat)
        (ParseAllocMetrics f) := by
  unfold processFailedAlloc
  rw [flatten_map_single _ (fun g => decide (g.Name = f.TaskGroup)) _ tg htg
    (by
      intro g _ hP
      rw [if_neg (by simpa using hP)])]
  have hname : tg.Name = f.TaskGroup := by
    have hmem : tg ∈ f.Job.TaskGroups.filter (fun g => g.Name = f.TaskGroup) := by
      rw [htg]; exact List.mem_singleton_self tg
    have := List.of_mem_filter hmem
    simpa using this
  rw [if_pos hname]
  by_cases hc : effectiveCount f.Job tg n = 1
  · rw [if_pos hc, if_pos hc]
    rfl
  · rw [if_neg hc, if_neg hc]

theorem replicate_filter_self (k : Nat) (b : AllocMetrics) :
    (List.replicate k b).filter (fun r => r = b) = List.replicate k b := by
  refine List.filter_eq_self.mpr ?_
  intro r hr
  simp [List.eq_of_mem_replicate hr]

theorem failedCopies_count (s : SimSnapshot) (m : JobEvaluationMetrics)
    (p : Plan) (f : Allocation) (tg : TaskGroup)
    (hm : getMetrics s = some m)
    (hp : matchedPlans s = [p])
    (huniq : p.FailedAllocs.filter (fun a => a.TaskGroup = f.TaskGroup) = [f])
    (htg : f.Job.TaskGroups.filter (fun g => g.Name = f.TaskGroup) = [tg]) :
    (m.FailedAllocsMetrics.filter (fun r => r = ParseAllocMetrics f)).length =
      (if effectiveCount f.Job tg s.NodeIDs.length = 1 then 1
       else (effectiveCount f.Job tg s.NodeIDs.length -
         (((planSuccessAllocs p).filter
           (fun alloc => alloc.TaskGroup = f.TaskGroup)).length : Int)).toNat) := by
  obtain ⟨j, hj, hs, hf, hjm, hb⟩ := getMetrics_some_elim s m hm
  have hall : ∀ q ∈ matchedPlans s, q.EvalID = s.Eval.ID := matchedPlans_all s
  rw [hp] at hall
  rw [hf, metricsLoop_eq_matched, hp,
    foldl_processPlan_failures _ _ _ _ _ hall]
  simp only [List.map_cons, List.map_nil, List.flatten_cons, List.flatten_nil,
    List.append_nil, List.nil_append]
  rw [List.filter_flatten, List.length_flatten, List.map_map, List.map_map]
  rw [sum_map_single p.FailedAllocs (fun a => decide (a.TaskGroup = f.TaskGroup)) _ f huniq
    (by
      intro g _ hP
      have hgne : ¬g.TaskGroup = f.TaskGroup := by simpa using hP
      simp only [Function.comp]
      rw [List.length_eq_zero, List.filter_eq_nil_iff]
      intro r hr
      have hrg := processFailedAlloc_mem p s.NodeIDs.length g r hr
      have : ¬r = ParseAllocMetrics f := by
        rw [hrg]
        intro hbad
        exact hgne (congrArg AllocMetrics.TaskGroup hbad)
      simpa using this)]
  simp only [Function.comp]
  rw [processFailedAlloc_eq p s.NodeIDs.length f tg htg, replicate_filter_self,
    List.length_replicate]

theorem metricsLoop_successes (s : SimSnapshot) (j : Job) :
    (metricsLoop s j).successfulAllocsMetrics =
      ((matchedPlans s).map
        (fun plan => (planSuccessAllocs plan).map ParseAllocMetrics)).flatten := by
  rw [metricsLoop_eq_matched,
    foldl_processPlan_successes _ _ _ _ _ (matchedPlans_all s)]
  rfl

theorem metricsLoop_failures (s : SimSnapshot) (j : Job) :
    (metricsLoop s j).failedAllocsMetrics =
      ((matchedPlans s).map (fun plan =>
        (plan.FailedAllocs.map
          (processFailedAlloc plan s.NodeIDs.length)).flatten)).flatten := by
  rw [metricsLoop_eq_matched,
    foldl_processPlan_failures _ _ _ _ _ (matchedPlans_all s)]
  rfl

theorem getMetrics_isSome (s : SimSnapshot) (j : Job)
    (hj : s.State.JobByID s.Eval.JobID = some j)
    (hnodes : ∀ q ∈ matchedPlans s, ∀ al ∈ planSuccessAllocs q,
      (s.State.NodeByID al.NodeID).isSome) :
    ∃ m, getMetrics s = some m ∧
      m.SuccessfulAllocsMetrics = (metricsLoop s j).successfulAllocsMetrics ∧
      m.FailedAllocsMetrics = (metricsLoop s j).failedAllocsMetrics ∧
      m.JobMetrics = (metricsLoop s j).jobMetrics := by
  have hallsome : ∀ id ∈ changedNodeIDs (metricsLoop s j).successfulAllocsMetrics,
      (s.State.NodeByID id).isSome := by
    intro id hid
    obtain ⟨a, ha, rfl⟩ := (mem_changedNodeIDs _ _).mp hid
    rw [metricsLoop_successes] at ha
    obtain ⟨l, hl, hal⟩ := List.mem_flatten.mp ha
    obtain ⟨q, hq, rfl⟩ := List.mem_map.mp hl
    obtain ⟨al, halq, rfl⟩ := List.mem_map.mp hal
    exact hnodes q hq al halq
  obtain ⟨l, hl, _⟩ := buildUsageChanges_some s.State _ hallsome
  exact ⟨_, getMetrics_build s j hj l hl, rfl, rfl, rfl⟩

/-- C1: for a failed-allocation record of a plan matched to the
snapshot's evaluation, with effective desired count N for its work group
and S successful same-group allocations in that plan, the output
failed-allocation metrics list contains exactly one copy of the record
when N equals 1, and exactly N minus S copies when N exceeds 1 (and S
does not exceed N). -/
theorem failure_count_correction (s : SimSnapshot) (m : JobEvaluationMetrics)
    (p : Plan) (f : Allocation) (tg : TaskGroup)
    (hm : getMetrics s = some m)
    (hp : matchedPlans s = [p])
    (huniq : p.FailedAllocs.filter (fun a => a.TaskGroup = f.TaskGroup) = [f])
    (htg : f.Job.TaskGroups.filter (fun g => g.Name = f.TaskGroup) = [tg]) :
    (effectiveCount f.Job tg s.NodeIDs.length = 1 →
      (m.FailedAllocsMetrics.filter
        (fun r => r = ParseAllocMetrics f)).length = 1) ∧
    (1 < effectiveCount f.Job tg s.NodeIDs.length →
      (((planSuccessAllocs p).filter
          (fun alloc => alloc.TaskGroup = f.TaskGroup)).length : Int) ≤
        effectiveCount f.Job tg s.NodeIDs.length →
      ((m.FailedAllocsMetrics.filter
          (fun r => r = ParseAllocMetrics f)).length : Int) =
        effectiveCount f.Job tg s.NodeIDs.length -
          ((planSuccessAllocs p).filter
            (fun alloc => alloc.TaskGroup = f.TaskGroup)).length) := by
  have hcount := failedCopies_count s m p f tg hm hp huniq htg
  constructor
  · intro h1
    rw [hcount, if_pos h1]
  · intro hgt hle
    rw [hcount, if_neg (by omega)]
    exact Int.toNat_of_nonneg (by omega)

/-- C2: the effective desired count used by the failure-count correction
is the work group's declared count multiplied by the number of node IDs
in the snapshot when the record's parent job has type system, and the
declared count unchanged otherwise; stated as the full characterization
of the number of emitted copies in terms of that count. -/
theorem system_effective_count (s : SimSnapshot) (m : JobEvaluationMetrics)
    (p : Plan) (f : Allocation) (tg : TaskGroup)
    (hm : getMetrics s = some m)
    (hp : matchedPlans s = [p])
    (huniq : p.FailedAllocs.filter (fun a => a.TaskGroup = f.TaskGroup) = [f])
    (htg : f.Job.TaskGroups.filter (fun g => g.Name = f.TaskGroup) = [tg]) :
    (m.FailedAllocsMetrics.filter (fun r => r = ParseAllocMetrics f)).length =
      (if (if f.Job.JobType = JobTypeSystem
           then tg.Count * (s.NodeIDs.length : Int) else tg.Count) = 1
       then 1
       else ((if f.Job.JobType = JobTypeSystem
             then tg.Count * (s.NodeIDs.length : Int) else tg.Count) -
         (((planSuccessAllocs p).filter
           (fun alloc => alloc.TaskGroup = f.TaskGroup)).length : Int)).toNat) := by
  have hcount := failedCopies_count s m p f tg hm hp huniq htg
  have heff : effectiveCount f.Job tg s.NodeIDs.length =
      (if f.Job.JobType = JobTypeSystem
       then tg.Count * (s.NodeIDs.length : Int) else tg.Count) := rfl
  rw [hcount, heff]

/-- C10: when the effective desired count N of a failed work group
exceeds 1 but the same plan already holds at least N successful
allocations of that group, `getMetrics` emits zero failed-allocation
records for the group and completes without error. -/
theorem overfull_group_clamped (s : SimSnapshot) (j : Job)
    (p : Plan) (f : Allocation) (tg : TaskGroup)
    (hj : s.State.JobByID s.Eval.JobID = some j)
    (hnodes : ∀ q ∈ matchedPlans s, ∀ al ∈ planSuccessAllocs q,
      (s.State.NodeByID al.NodeID).isSome)
    (hp : matchedPlans s = [p])
    (huniq : p.FailedAllocs.filter (fun a => a.TaskGroup = f.TaskGroup) = [f])
    (htg : f.Job.TaskGroups.filter (fun g => g.Name = f.TaskGroup) = [tg])
    (hgt : 1 < effectiveCount f.Job tg s.NodeIDs.length)
    (hge : effectiveCount f.Job tg s.NodeIDs.length ≤
      (((planSuccessAllocs p).filter
        (fun alloc => alloc.TaskGroup = f.TaskGroup)).length : Int)) :
    ∃ m, getMetrics s = some m ∧
      (m.FailedAllocsMetrics.filter
        (fun r => r = ParseAllocMetrics f)).length = 0 := by
  obtain ⟨m, hm, _, _, _⟩ := getMetrics_isSome s j hj hnodes
  refine ⟨m, hm, ?_⟩
  have hcount := failedCopies_count s m p f tg hm hp huniq htg
  rw [hcount, if_neg (by omega)]
  omega

/-- Witness data for C1: a service job with one work group of count 5. -/
def c1job : Job :=
  { ID := "job1", Region := "global", Name := "job1", JobType := JobTypeService
    Priority := 50, Datacenters := ["dc1"]
    TaskGroups := [{ Name := "web", Count := 5 }] }

/-- Witness data for C1: the count-5 work group. -/
def c1group : TaskGroup := { Name := "web", Count := 5 }

/-- Witness data for C1: a successful allocation of the work group. -/
def c1succ : Allocation :=
  { NodeID := "n1", JobID := "job1", TaskGroup := "web", Job := c1job
    Resources := { CPU := 100, MemoryMB := 256, DiskMB := 300, IOPS := 1 }
    Metrics := { AllocationTime := 5 }
    DesiredDescription := "", DesiredStatus := "run" }

/-- Witness data for C1: the reported failed allocation of the group. -/
def c1failed : Allocation :=
  { NodeID := "", JobID := "job1", TaskGroup := "web", Job := c1job
    Resources := { CPU := 100, MemoryMB := 256, DiskMB := 300, IOPS := 1 }
    Metrics := { AllocationTime := 0 }
    DesiredDescription := "failed", DesiredStatus := "failed" }

/-- Witness data for C1: the matched plan with 3 successes and the
failure report. -/
def c1plan : Plan :=
  { EvalID := "e1", NodeUpdate := []
    NodeAllocation := [("n1", [c1succ, c1succ, c1succ])]
    FailedAllocs := [c1failed] }

/-- Witness data for C1: the snapshot. -/
def c1snap : SimSnapshot :=
  { Eval := { ID := "e1", Priority := 50, TriggeredBy := "job-register", JobID := "job1" }
    Plans := [c1plan]
    State :=
      { nodes := [{ ID := "n1", Datacenter := "dc1", Name := "node1", Attributes := []
                    Resources := { CPU := 4000, MemoryMB := 8192, DiskMB := 100000, IOPS := 100 }
                    Reserved := { CPU := 0, MemoryMB := 0, DiskMB := 0, IOPS := 0 } }]
        jobs := [c1job], allocs := [], upsertFails := fun _ _ => false }
    NodeIDs := ["n1"], Time := 100 }

theorem failure_count_correction_witness :
    Option.map (fun m => ((m.FailedAllocsMetrics.filter
        (fun r => r = ParseAllocMetrics c1failed)).length : Int)) (getMetrics c1snap) =
      some (5 - 3) := by
  have hsome : (getMetrics c1snap).isSome := by decide
  obtain ⟨m, hm⟩ := Option.isSome_iff_exists.mp hsome
  have h := (failure_count_correction c1snap m c1plan c1failed c1group hm
    (by decide) (by decide) (by decide)).2 (by decide) (by decide)
  rw [hm]
  simp only [Option.map_some']
  rw [h]
  decide

/-- Witness data for C2: a system job with a 1-replica work group. -/
def c2job : Job :=
  { ID := "job2", Region := "global", Name := "job2", JobType := JobTypeSystem
    Priority := 50, Datacenters := ["dc1"]
    TaskGroups := [{ Name := "mon", Count := 1 }] }

/-- Witness data for C2: the 1-replica work group. -/
def c2group : TaskGroup := { Name := "mon", Count := 1 }

/-- Witness data for C2: a successful allocation of the work group. -/
def c2succ : Allocation :=
  { NodeID := "n1", JobID := "job2", TaskGroup := "mon", Job := c2job
    Resources := { CPU := 50, MemoryMB := 64, DiskMB := 100, IOPS := 1 }
    Metrics := { AllocationTime := 3 }
    DesiredDescription := "", DesiredStatus := "run" }

/-- Witness data for C2: the reported failed allocation of the group. -/
def c2failed : Allocation :=
  { NodeID := "", JobID := "job2", TaskGroup := "mon", Job := c2job
    Resources := { CPU := 50, MemoryMB := 64, DiskMB := 100, IOPS := 1 }
    Metrics := { AllocationTime := 0 }
    DesiredDescription := "failed", DesiredStatus := "failed" }

/-- Witness data for C2: the matched plan. -/
def c2plan : Plan :=
  { EvalID := "e2", NodeUpdate := []
    NodeAllocation := [("n1", [c2succ])]
    FailedAllocs := [c2failed] }

/-- Witness data for C2: the snapshot over a 3-node cluster. -/
def c2snap : SimSnapshot :=
  { Eval := { ID := "e2", Priority := 50, TriggeredBy := "job-register", JobID := "job2" }
    Plans := [c2plan]
    State :=
      { nodes := [{ ID := "n1", Datacenter := "dc1", Name := "node1", Attributes := []
                    Resources := { CPU := 4000, MemoryMB := 8192, DiskMB := 100000, IOPS := 100 }
                    Reserved := { CPU := 0, MemoryMB := 0, DiskMB := 0, IOPS := 0 } },
                  { ID := "n2", Datacenter := "dc1", Name := "node2", Attributes := []
                    Resources := { CPU := 4000, MemoryMB := 8192, DiskMB := 100000, IOPS := 100 }
                    Reserved := { CPU := 0, MemoryMB := 0, DiskMB := 0, IOPS := 0 } },
                  { ID := "n3", Datacenter := "dc1", Name := "node3", Attributes := []
                    Resources := { CPU := 4000, MemoryMB := 8192, DiskMB := 100000, IOPS := 100 }
                    Reserved := { CPU := 0, MemoryMB := 0, DiskMB := 0, IOPS := 0 } }]
        jobs := [c2job], allocs := [], upsertFails := fun _ _ => false }
    NodeIDs := ["n1", "n2", "n3"], Time := 100 }

theorem system_effective_count_witness :
    Option.map (fun m => (m.FailedAllocsMetrics.filter
        (fun r => r = ParseAllocMetrics c2failed)).length) (getMetrics c2snap) =
      some 2 := by
  have hsome : (getMetrics c2snap).isSome := by decide
  obtain ⟨m, hm⟩ := Option.isSome_iff_exists.mp hsome
  have h := system_effective_count c2snap m c2plan c2failed c2group hm
    (by decide) (by decide) (by decide)
  rw [hm]
  simp only [Option.map_some']
  rw [h]
  decide

/-- Witness data for C10: a service job with one work group of count 2. -/
def c10job : Job :=
  { ID := "job10", Region := "global", Name := "job10", JobType := JobTypeService
    Priority := 50, Datacenters := ["dc1"]
    TaskGroups := [{ Name := "api", Count := 2 }] }

/-- Witness data for C10: the count-2 work group. -/
def c10group : TaskGroup := { Name := "api", Count := 2 }

/-- Witness data for C10: a successful allocation of the work group. -/
def c10succ : Allocation :=
  { NodeID := "n1", JobID := "job10", TaskGroup := "api", Job := c10job
    Resources := { CPU := 10, MemoryMB := 32, DiskMB := 10, IOPS := 1 }
    Metrics := { AllocationTime := 7 }
    DesiredDescription := "", DesiredStatus := "run" }

/-- Witness data for C10: the reported failed allocation of the group. -/
def c10failed : Allocation :=
  { NodeID := "", JobID := "job10", TaskGroup := "api", Job := c10job
    Resources := { CPU := 10, MemoryMB := 32, DiskMB := 10, IOPS := 1 }
    Metrics := { AllocationTime := 0 }
    DesiredDescription := "failed", DesiredStatus := "failed" }

/-- Witness data for C10: the matched plan with 3 same-group successes. -/
def c10plan : Plan :=
  { EvalID := "e10", NodeUpdate := []
    NodeAllocation := [("n1", [c10succ, c10succ, c10succ])]
    FailedAllocs := [c10failed] }

/-- Witness data for C10: the snapshot. -/
def c10snap : SimSnapshot :=
  { Eval := { ID := "e10", Priority := 50, TriggeredBy := "job-register", JobID := "job10" }
    Plans := [c10plan]
    State :=
      { nodes := [{ ID := "n1", Datacenter := "dc1", Name := "node1", Attributes := []
                    Resources := { CPU := 4000, MemoryMB := 8192, DiskMB := 100000, IOPS := 100 }
                    Reserved := { CPU := 0, MemoryMB := 0, DiskMB := 0, IOPS := 0 } }]
        jobs := [c10job], allocs := [], upsertFails := fun _ _ => false }
    NodeIDs := ["n1"], Time := 100 }

theorem overfull_group_clamped_witness :
    Option.map (fun m => (m.FailedAllocsMetrics.filter
        (fun r => r = ParseAllocMetrics c10failed)).length) (getMetrics c10snap) =
      some 0 := by
  obtain ⟨m, hm, hz⟩ := overfull_group_clamped c10snap c10job c10plan c10failed
    c10group (by decide) (by decide) (by decide) (by decide) (by decide)
    (by decide) (by decide)
  rw [hm]
  simp only [Option.map_some']
  rw [hz]

/-- C4 (amended): the final timestamp is decided by the last matched
plan alone: it is the snapshot's start timestamp plus the maximum
placement time over that plan's successful allocations when that plan
has at least one successful allocation (placement times being
nonnegative), the sentinel -1 when that plan has no successful
allocation, and the unassigned zero value when no plan matches. -/
theorem final_timestamp_amended (s : SimSnapshot) (m : JobEvaluationMetrics)
    (hm : getMetrics s = some m) :
    (matchedPlans s = [] → m.JobMetrics.FinalTimestamp = 0) ∧
    (∀ l p, matchedPlans s = l ++ [p] →
      (planSuccessAllocs p = [] → m.JobMetrics.FinalTimestamp = -1) ∧
      ((∀ al ∈ planSuccessAllocs p, 0 ≤ al.Metrics.AllocationTime) →
        planSuccessAllocs p ≠ [] →
        ∃ mx, m.JobMetrics.FinalTimestamp = s.Time + mx ∧
          mx ∈ (planSuccessAllocs p).map (fun al => al.Metrics.AllocationTime) ∧
          ∀ x ∈ (planSuccessAllocs p).map (fun al => al.Metrics.AllocationTime),
            x ≤ mx)) := by
  obtain ⟨j, hj, hs, hf, hjm, hb⟩ := getMetrics_some_elim s m hm
  constructor
  · intro hempty
    rw [hjm, metricsLoop_eq_matched, hempty]
    rfl
  · intro l p hlp
    have hall := matchedPlans_all s
    rw [hlp] at hall
    have hp : p.EvalID = s.Eval.ID := hall p (by simp)
    have hfinal : m.JobMetrics.FinalTimestamp =
        (if planMaxAllocTime p ≠ -1 then s.Time + planMaxAllocTime p else -1) := by
      rw [hjm, metricsLoop_eq_matched, hlp,
        foldl_processPlan_jobMetrics_concat _ _ _ _ _ _ hp]
    constructor
    · intro hempty
      have hmx : planMaxAllocTime p = -1 := by
        rw [planMaxAllocTime_eq_foldl_max, hempty]
        rfl
      rw [hfinal, hmx]
      simp
    · intro hnn hne
      have hfold : planMaxAllocTime p =
          ((planSuccessAllocs p).map
            (fun al => al.Metrics.AllocationTime)).foldl max (-1) :=
        planMaxAllocTime_eq_foldl_max p
      obtain ⟨al0, hal0⟩ := List.exists_mem_of_ne_nil _ hne
      have hmem : ((planSuccessAllocs p).map
          (fun al => al.Metrics.AllocationTime)).foldl max (-1) ∈
            (planSuccessAllocs p).map (fun al => al.Metrics.AllocationTime) := by
        rcases foldl_max_cases ((planSuccessAllocs p).map
            (fun al => al.Metrics.AllocationTime)) (-1) with hc | hc
        · exfalso
          have ht0 : al0.Metrics.AllocationTime ∈
              (planSuccessAllocs p).map (fun al => al.Metrics.AllocationTime) :=
            List.mem_map_of_mem _ hal0
          have hle := mem_le_foldl_max _ (-1) _ ht0
          rw [hc] at hle
          have := hnn al0 hal0
          omega
        · exact hc
      have hub : ∀ x ∈ (planSuccessAllocs p).map
          (fun al => al.Metrics.AllocationTime),
          x ≤ ((planSuccessAllocs p).map
            (fun al => al.Metrics.AllocationTime)).foldl max (-1) :=
        fun x hx => mem_le_foldl_max _ (-1) x hx
      have hge0 : 0 ≤ ((planSuccessAllocs p).map
          (fun al => al.Metrics.AllocationTime)).foldl max (-1) := by
        obtain ⟨al1, hal1, heq⟩ := List.mem_map.mp hmem
        rw [← heq]
        exact hnn al1 hal1
      have hne1 : planMaxAllocTime p ≠ -1 := by
        rw [hfold]
        omega
      refine ⟨((planSuccessAllocs p).map
        (fun al => al.Metrics.AllocationTime)).foldl max (-1), ?_, hmem, hub⟩
      rw [hfinal, if_pos hne1, hfold]

/-- Counterexample data for C4: the evaluated job. -/
def c4cexjob : Job :=
  { ID := "job4x", Region := "global", Name := "job4x", JobType := JobTypeService
    Priority := 50, Datacenters := ["dc1"], TaskGroups := [{ Name := "web", Count := 1 }] }

/-- Counterexample data for C4: a successful allocation that took 5
nanoseconds to place. -/
def c4cexsucc : Allocation :=
  { NodeID := "n1", JobID := "job4x", TaskGroup := "web", Job := c4cexjob
    Resources := { CPU := 100, MemoryMB := 256, DiskMB := 300, IOPS := 1 }
    Metrics := { AllocationTime := 5 }
    DesiredDescription := "", DesiredStatus := "run" }

/-- Counterexample data for C4: a snapshot whose evaluation matches two
plans, the first holding the only successful allocation, the second
holding none. -/
def c4cexsnap : SimSnapshot :=
  { Eval := { ID := "e4x", Priority := 50, TriggeredBy := "job-register", JobID := "job4x" }
    Plans := [{ EvalID := "e4x", NodeUpdate := []
                NodeAllocation := [("n1", [c4cexsucc])], FailedAllocs := [] },
              { EvalID := "e4x", NodeUpdate := []
                NodeAllocation := [], FailedAllocs := [] }]
    State :=
      { nodes := [{ ID := "n1", Datacenter := "dc1", Name := "node1", Attributes := []
                    Resources := { CPU := 4000, MemoryMB := 8192, DiskMB := 100000, IOPS := 100 }
                    Reserved := { CPU := 0, MemoryMB := 0, DiskMB := 0, IOPS := 0 } }]
        jobs := [c4cexjob], allocs := [], upsertFails := fun _ _ => false }
    NodeIDs := ["n1"], Time := 100 }

/-- Counterexample to C4 as stated: the snapshot's matched plans hold
exactly one successful allocation, with placement time 5 and start
timestamp 100, yet the final timestamp is -1 and not 100 + 5: with more
than one matched plan the code takes the maximum over the last matched
plan only, not over all matched plans. -/
theorem final_timestamp_counterexample :
    Option.map (fun m =>
      (m.JobMetrics.FinalTimestamp,
        m.SuccessfulAllocsMetrics.map (fun a => a.AllocationTime)))
      (getMetrics c4cexsnap) = some (-1, [5]) ∧
    (100 : Int) + 5 ≠ -1 := by
  constructor
  · decide
  · decide

/-- Witness data for C4: a single matched plan with successful
allocations of placement times 5 and 2. -/
def c4job : Job :=
  { ID := "job4", Region := "global", Name := "job4", JobType := JobTypeService
    Priority := 50, Datacenters := ["dc1"], TaskGroups := [{ Name := "web", Count := 2 }] }

/-- Witness data for C4: the slower successful allocation. -/
def c4succA : Allocation :=
  { NodeID := "n1", JobID := "job4", TaskGroup := "web", Job := c4job
    Resources := { CPU := 100, MemoryMB := 256, DiskMB := 300, IOPS := 1 }
    Metrics := { AllocationTime := 5 }
    DesiredDescription := "", DesiredStatus := "run" }

/-- Witness data for C4: the faster successful allocation. -/
def c4succB : Allocation :=
  { NodeID := "n1", JobID := "job4", TaskGroup := "web", Job := c4job
    Resources := { CPU := 100, MemoryMB := 256, DiskMB := 300, IOPS := 1 }
    Metrics := { AllocationTime := 2 }
    DesiredDescription := "", DesiredStatus := "run" }

/-- Witness data for C4: the matched plan. -/
def c4plan : Plan :=
  { EvalID := "e4", NodeUpdate := []
    NodeAllocation := [("n1", [c4succA, c4succB])], FailedAllocs := [] }

/-- Witness data for C4: the snapshot. -/
def c4snap : SimSnapshot :=
  { Eval := { ID := "e4", Priority := 50, TriggeredBy := "job-register", JobID := "job4" }
    Plans := [c4plan]
    State :=
      { nodes := [{ ID := "n1", Datacenter := "dc1", Name := "node1", Attributes := []
                    Resources := { CPU := 4000, MemoryMB := 8192, DiskMB := 100000, IOPS := 100 }
                    Reserved := { CPU := 0, MemoryMB := 0, DiskMB := 0, IOPS := 0 } }]
        jobs := [c4job], allocs := [], upsertFails := fun _ _ => false }
    NodeIDs := ["n1"], Time := 100 }

theorem final_timestamp_amended_witness :
    Option.map (fun m => m.JobMetrics.FinalTimestamp) (getMetrics c4snap) =
      some 105 := by
  have hsome : (getMetrics c4snap).isSome := by decide
  obtain ⟨m, hm⟩ := Option.isSome_iff_exists.mp hsome
  obtain ⟨mx, hfin, hmem, hub⟩ := ((final_timestamp_amended c4snap m hm).2 []
    c4plan (by decide)).2 (by decide) (by decide)
  have hlist : (planSuccessAllocs c4plan).map
      (fun al => al.Metrics.AllocationTime) = [5, 2] := by decide
  rw [hlist] at hmem
  have h5 : (5 : Int) ≤ mx := by
    refine hub 5 ?_
    rw [hlist]
    simp
  have hmx : mx = 5 := by
    rcases List.mem_cons.mp hmem with rfl | hmem2
    · rfl
    · rcases List.mem_cons.mp hmem2 with rfl | hmem3
      · omega
      · simp at hmem3
  rw [hm]
  simp only [Option.map_some']
  rw [hfin, hmx]
  decide

/-- C5 (amended): when no plan matches the snapshot's evaluation,
`getMetrics` returns normally with empty successful, failed and
node-usage lists and the job metrics of the evaluated job, whose final
timestamp is the unassigned zero value, not the -1 sentinel; when the
evaluated job has zero work groups and some plan matches, provided the
matched plans place nothing and their failure reports reference the
evaluated job, the lists are empty and the final timestamp is the -1
sentinel. -/
theorem empty_evaluation_metrics (s : SimSnapshot) (j : Job)
    (hj : s.State.JobByID s.Eval.JobID = some j) :
    (matchedPlans s = [] →
      getMetrics s = some
        { JobMetrics := ParseJobMetrics j
          NodeUsageChanges := []
          FailedAllocsMetrics := []
          SuccessfulAllocsMetrics := [] } ∧
      (ParseJobMetrics j).FinalTimestamp = 0) ∧
    (j.TaskGroups = [] →
      (∀ p ∈ matchedPlans s, planSuccessAllocs p = [] ∧
        ∀ fa ∈ p.FailedAllocs, fa.Job = j) →
      matchedPlans s ≠ [] →
      ∃ m, getMetrics s = some m ∧
        m.SuccessfulAllocsMetrics = [] ∧
        m.FailedAllocsMetrics = [] ∧
        m.NodeUsageChanges = [] ∧
        m.JobMetrics.FinalTimestamp = -1) := by
  constructor
  · intro hempty
    have hacc : metricsLoop s j =
        { successfulAllocsMetrics := []
          failedAllocsMetrics := []
          jobMetrics := ParseJobMetrics j } := by
      rw [metricsLoop_eq_matched, hempty]
      rfl
    have hbuild := getMetrics_build s j hj []
      (by rw [hacc]; rfl)
    rw [hacc] at hbuild
    exact ⟨hbuild, rfl⟩
  · intro hgroups hplans hne
    have hsucc : (metricsLoop s j).successfulAllocsMetrics = [] := by
      rw [metricsLoop_successes]
      refine flatten_map_eq_nil _ _ ?_
      intro p hp
      rw [(hplans p hp).1]
      rfl
    have hfail : (metricsLoop s j).failedAllocsMetrics = [] := by
      rw [metricsLoop_failures]
      refine flatten_map_eq_nil _ _ ?_
      intro p hp
      refine flatten_map_eq_nil _ _ ?_
      intro fa hfa
      have hfj : fa.Job = j := (hplans p hp).2 fa hfa
      unfold processFailedAlloc
      rw [hfj, hgroups]
      rfl
    have hfin : (metricsLoop s j).jobMetrics.FinalTimestamp = -1 := by
      rcases List.eq_nil_or_concat' (matchedPlans s) with hcat | ⟨L, b, hcat⟩
      · exact absurd hcat hne
      · have hall := matchedPlans_all s
        rw [hcat] at hall
        have hbmem : b ∈ L ++ [b] := by simp
        have hpb : b.EvalID = s.Eval.ID := hall b hbmem
        have hsb : planSuccessAllocs b = [] :=
          (hplans b (by rw [hcat]; exact hbmem)).1
        have hmx : planMaxAllocTime b = -1 := by
          rw [planMaxAllocTime_eq_foldl_max, hsb]
          rfl
        rw [metricsLoop_eq_matched, hcat,
          foldl_processPlan_jobMetrics_concat _ _ _ _ _ _ hpb]
        simp [hmx]
    have hbuild := getMetrics_build s j hj [] (by rw [hsucc]; rfl)
    exact ⟨_, hbuild, hsucc, hfail, rfl, hfin⟩

/-- Counterexample data for C5: an evaluated job with zero work
groups. -/
def c5cexjob : Job :=
  { ID := "job5x", Region := "global", Name := "job5x", JobType := JobTypeService
    Priority := 50, Datacenters := ["dc1"], TaskGroups := [] }

/-- Counterexample data for C5: a snapshot whose evaluation produced no
plan at all. -/
def c5cexsnap : SimSnapshot :=
  { Eval := { ID := "e5x", Priority := 50, TriggeredBy := "job-register", JobID := "job5x" }
    Plans := []
    State := { nodes := [], jobs := [c5cexjob], allocs := [], upsertFails := fun _ _ => false }
    NodeIDs := [], Time := 100 }

/-- Counterexample to C5 as stated: for a snapshot with a zero-work-group
job and no matching plan, `getMetrics` does return empty lists, but the
final timestamp is the unassigned zero value 0, not the -1 sentinel the
code uses for a job that never completed. -/
theorem empty_evaluation_counterexample :
    Option.map (fun m =>
      (m.SuccessfulAllocsMetrics, m.FailedAllocsMetrics, m.NodeUsageChanges,
        m.JobMetrics.FinalTimestamp)) (getMetrics c5cexsnap) =
      some ([], [], [], 0) ∧ (0 : Int) ≠ -1 := by
  constructor
  · decide
  · decide

/-- Witness data for C5: an evaluated job with zero work groups. -/
def c5job : Job :=
  { ID := "job5", Region := "global", Name := "job5", JobType := JobTypeService
    Priority := 50, Datacenters := ["dc1"], TaskGroups := [] }

/-- Witness data for C5: a matched plan that places nothing. -/
def c5plan : Plan :=
  { EvalID := "e5", NodeUpdate := [], NodeAllocation := [], FailedAllocs := [] }

/-- Witness data for C5: the snapshot. -/
def c5snap : SimSnapshot :=
  { Eval := { ID := "e5", Priority := 50, TriggeredBy := "job-register", JobID := "job5" }
    Plans := [c5plan]
    State := { nodes := [], jobs := [c5job], allocs := [], upsertFails := fun _ _ => false }
    NodeIDs := [], Time := 100 }

theorem empty_evaluation_metrics_witness :
    Option.map (fun m =>
      (m.SuccessfulAllocsMetrics, m.FailedAllocsMetrics, m.NodeUsageChanges,
        m.JobMetrics.FinalTimestamp)) (getMetrics c5snap) =
      some ([], [], [], -1) := by
  obtain ⟨m, hm, h1, h2, h3, h4⟩ :=
    (empty_evaluation_metrics c5snap c5job (by decide)).2 (by decide)
      (by decide) (by decide)
  rw [hm]
  simp only [Option.map_some']
  rw [h1, h2, h3, h4]

/-- C6: `getMetrics` emits exactly one node-usage-change record per
distinct node ID appearing in a successful allocation of the matched
plans, and none for untouched nodes: the emitted ID list has no
duplicate and contains an ID exactly when some successful allocation of
some matched plan names it. -/
theorem node_usage_changes_exact (s : SimSnapshot) (m : JobEvaluationMetrics)
    (hm : getMetrics s = some m) :
    m.SuccessfulAllocsMetrics =
      ((matchedPlans s).map
        (fun plan => (planSuccessAllocs plan).map ParseAllocMetrics)).flatten ∧
    (m.NodeUsageChanges.map (fun c => c.ID)).Nodup ∧
    (∀ id, id ∈ m.NodeUsageChanges.map (fun c => c.ID) ↔
      ∃ q ∈ matchedPlans s, ∃ al ∈ planSuccessAllocs q, al.NodeID = id) := by
  obtain ⟨j, hj, hs, hf, hjm, hb⟩ := getMetrics_some_elim s m hm
  have hids : m.NodeUsageChanges.map (fun c => c.ID) =
      changedNodeIDs (metricsLoop s j).successfulAllocsMetrics :=
    buildUsageChanges_ids _ _ _ hb
  refine ⟨by rw [hs, metricsLoop_successes], ?_, ?_⟩
  · rw [hids]
    exact changedNodeIDs_nodup _
  · intro id
    rw [hids, mem_changedNodeIDs, metricsLoop_successes]
    constructor
    · rintro ⟨a, ha, rfl⟩
      obtain ⟨l, hl, hal⟩ := List.mem_flatten.mp ha
      obtain ⟨q, hq, rfl⟩ := List.mem_map.mp hl
      obtain ⟨al, halq, rfl⟩ := List.mem_map.mp hal
      exact ⟨q, hq, al, halq, rfl⟩
    · rintro ⟨q, hq, al, halq, rfl⟩
      refine ⟨ParseAllocMetrics al, ?_, rfl⟩
      rw [List.mem_flatten]
      exact ⟨(planSuccessAllocs q).map ParseAllocMetrics,
        List.mem_map_of_mem _ hq, List.mem_map_of_mem _ halq⟩

/-- Witness data for C6: the evaluated job. -/
def c6job : Job :=
  { ID := "job6", Region := "global", Name := "job6", JobType := JobTypeService
    Priority := 50, Datacenters := ["dc1"], TaskGroups := [{ Name := "web", Count := 3 }] }

/-- Witness data for C6: a successful allocation on node n1. -/
def c6succ1 : Allocation :=
  { NodeID := "n1", JobID := "job6", TaskGroup := "web", Job := c6job
    Resources := { CPU := 100, MemoryMB := 256, DiskMB := 300, IOPS := 1 }
    Metrics := { AllocationTime := 4 }
    DesiredDescription := "", DesiredStatus := "run" }

/-- Witness data for C6: a second successful allocation on node n1. -/
def c6succ2 : Allocation :=
  { NodeID := "n1", JobID := "job6", TaskGroup := "web", Job := c6job
    Resources := { CPU := 100, MemoryMB := 256, DiskMB := 300, IOPS := 1 }
    Metrics := { AllocationTime := 6 }
    DesiredDescription := "", DesiredStatus := "run" }

/-- Witness data for C6: a successful allocation on node n2. -/
def c6succ3 : Allocation :=
  { NodeID := "n2", JobID := "job6", TaskGroup := "web", Job := c6job
    Resources := { CPU := 100, MemoryMB := 256, DiskMB := 300, IOPS := 1 }
    Metrics := { AllocationTime := 2 }
    DesiredDescription := "", DesiredStatus := "run" }

/-- Witness data for C6: the matched plan touching nodes n1 and n2. -/
def c6plan : Plan :=
  { EvalID := "e6", NodeUpdate := []
    NodeAllocation := [("n1", [c6succ1, c6succ2]), ("n2", [c6succ3])]
    FailedAllocs := [] }

/-- Witness data for C6: the snapshot over nodes n1, n2 and n3. -/
def c6snap : SimSnapshot :=
  { Eval := { ID := "e6", Priority := 50, TriggeredBy := "job-register", JobID := "job6" }
    Plans := [c6plan]
    State :=
      { nodes := [{ ID := "n1", Datacenter := "dc1", Name := "node1", Attributes := []
                    Resources := { CPU := 4000, MemoryMB := 8192, DiskMB := 100000, IOPS := 100 }
                    Reserved := { CPU := 0, MemoryMB := 0, DiskMB := 0, IOPS := 0 } },
                  { ID := "n2", Datacenter := "dc1", Name := "node2", Attributes := []
                    Resources := { CPU := 4000, MemoryMB := 8192, DiskMB := 100000, IOPS := 100 }
                    Reserved := { CPU := 0, MemoryMB := 0, DiskMB := 0, IOPS := 0 } },
                  { ID := "n3", Datacenter := "dc1", Name := "node3", Attributes := []
                    Resources := { CPU := 4000, MemoryMB := 8192, DiskMB := 100000, IOPS := 100 }
                    Reserved := { CPU := 0, MemoryMB := 0, DiskMB := 0, IOPS := 0 } }]
        jobs := [c6job], allocs := [], upsertFails := fun _ _ => false }
    NodeIDs := ["n1", "n2", "n3"], Time := 100 }

theorem node_usage_changes_exact_witness :
    (getMetrics c6snap).elim False (fun m =>
      (m.NodeUsageChanges.map (fun c => c.ID)).Nodup ∧
      "n1" ∈ m.NodeUsageChanges.map (fun c => c.ID) ∧
      "n3" ∉ m.NodeUsageChanges.map (fun c => c.ID)) := by
  have hsome : (getMetrics c6snap).isSome := by decide
  obtain ⟨m, hm⟩ := Option.isSome_iff_exists.mp hsome
  obtain ⟨h1, h2, h3⟩ := node_usage_changes_exact c6snap m hm
  rw [hm]
  refine ⟨h2, ?_, ?_⟩
  · rw [h3 "n1"]
    exact ⟨c6plan, by decide, c6succ1, by decide, by decide⟩
  · rw [h3 "n3"]
    decide

/-- Counterexample data for C7: the parent job of the evicted
allocation. -/
def c7job : Job :=
  { ID := "job7", Region := "global", Name := "job7", JobType := JobTypeService
    Priority := 50, Datacenters := ["dc1"], TaskGroups := [{ Name := "web", Count := 1 }] }

/-- Counterexample data for C7: an allocation carried in the plan's
`NodeUpdate` (evict) map. -/
def c7alloc : Allocation :=
  { NodeID := "n1", JobID := "job7", TaskGroup := "web", Job := c7job
    Resources := { CPU := 100, MemoryMB := 256, DiskMB := 300, IOPS := 1 }
    Metrics := { AllocationTime := 1 }
    DesiredDescription := "evict", DesiredStatus := "evict" }

/-- Counterexample data for C7: a plan whose only allocation sits in the
`NodeUpdate` map. -/
def c7plan : Plan :=
  { EvalID := "e7", NodeUpdate := [("n1", [c7alloc])]
    NodeAllocation := [], FailedAllocs := [] }

/-- Counterexample to C7 as stated: submitting a plan whose only
allocation is a node update (evict) records that allocation in the
store, while the claim's flattened list (per-node allocations plus
failed allocations only) is empty: `SubmitPlan` also flattens the
plan's `NodeUpdate` allocations. -/
theorem submit_plan_counterexample :
    (NewSimHarness.SubmitPlan c7plan).2.1.State.allocs = [(1, c7alloc)] ∧
    claimFlattenedAllocs c7plan = [] ∧
    ¬((NewSimHarness.SubmitPlan c7plan).2.1.State.allocs =
      NewSimHarness.State.allocs ++ (claimFlattenedAllocs c7plan).map
        (fun a => ((NewSimHarness.SubmitPlan c7plan).1.AllocIndex, a))) := by
  refine ⟨by decide, by decide, by decide⟩

/-- C7 (amended): with no custom planner and a successful upsert,
`SubmitPlan` flattens the plan's node-update allocations, per-node
allocations and failed allocations into one list, upserts that list
under the version freshly obtained from the counter, returns that same
version as the result's `AllocIndex`, appends the plan to the history
and advances the counter. -/
theorem submit_plan_amended (h : SimHarness) (plan : Plan)
    (hpl : h.Planner = none) (result : PlanResult) (h2 : SimHarness)
    (err : Option String)
    (heq : h.SubmitPlan plan = (result, h2, err)) (hok : err = none) :
    result.AllocIndex = h.nextIndex ∧
    h2.State.allocs = h.State.allocs ++
      (flattenPlanAllocs plan).map (fun a => (h.nextIndex, a)) ∧
    h2.Plans = h.Plans ++ [plan] ∧
    h2.nextIndex = (h.nextIndex + 1) % 2 ^ 64 := by
  unfold SimHarness.SubmitPlan at heq
  simp only [hpl] at heq
  unfold SimHarness.NextIndex at heq
  unfold StateStore.UpsertAllocs at heq
  by_cases hfb : h.State.upsertFails h.nextIndex (flattenPlanAllocs plan) = true
  · rw [if_pos hfb] at heq
    have : err = some "upsert failed" := (Prod.mk.injEq _ _ _ _).mp
      ((Prod.mk.injEq _ _ _ _).mp heq).2 |>.2.symm
    rw [hok] at this
    cases this
  · rw [if_neg hfb] at heq
    obtain ⟨h1, hrest⟩ := (Prod.mk.injEq _ _ _ _).mp heq
    obtain ⟨hh2, _⟩ := (Prod.mk.injEq _ _ _ _).mp hrest
    subst h1
    subst hh2
    exact ⟨rfl, rfl, rfl, rfl⟩

/-- Witness data for C7: the parent job. -/
def c7wjob : Job :=
  { ID := "job7w", Region := "global", Name := "job7w", JobType := JobTypeService
    Priority := 50, Datacenters := ["dc1"], TaskGroups := [{ Name := "web", Count := 2 }] }

/-- Witness data for C7: an evicted allocation. -/
def c7walloc1 : Allocation :=
  { NodeID := "n1", JobID := "job7w", TaskGroup := "web", Job := c7wjob
    Resources := { CPU := 100, MemoryMB := 256, DiskMB := 300, IOPS := 1 }
    Metrics := { AllocationTime := 1 }
    DesiredDescription := "evict", DesiredStatus := "evict" }

/-- Witness data for C7: a placed allocation. -/
def c7walloc2 : Allocation :=
  { NodeID := "n2", JobID := "job7w", TaskGroup := "web", Job := c7wjob
    Resources := { CPU := 100, MemoryMB := 256, DiskMB := 300, IOPS := 1 }
    Metrics := { AllocationTime := 2 }
    DesiredDescription := "", DesiredStatus := "run" }

/-- Witness data for C7: a failed allocation. -/
def c7walloc3 : Allocation :=
  { NodeID := "", JobID := "job7w", TaskGroup := "web", Job := c7wjob
    Resources := { CPU := 100, MemoryMB := 256, DiskMB := 300, IOPS := 1 }
    Metrics := { AllocationTime := 0 }
    DesiredDescription := "failed", DesiredStatus := "failed" }

/-- Witness data for C7: a plan with one allocation in each bucket. -/
def c7wplan : Plan :=
  { EvalID := "e7w", NodeUpdate := [("n1", [c7walloc1])]
    NodeAllocation := [("n2", [c7walloc2])], FailedAllocs := [c7walloc3] }

theorem submit_plan_amended_witness :
    (NewSimHarness.SubmitPlan c7wplan).2.1.State.allocs =
      NewSimHarness.State.allocs ++
        (flattenPlanAllocs c7wplan).map (fun a => (NewSimHarness.nextIndex, a)) ∧
    (NewSimHarness.SubmitPlan c7wplan).1.AllocIndex = NewSimHarness.nextIndex := by
  have h := submit_plan_amended NewSimHarness c7wplan rfl
    (NewSimHarness.SubmitPlan c7wplan).1
    (NewSimHarness.SubmitPlan c7wplan).2.1
    (NewSimHarness.SubmitPlan c7wplan).2.2 rfl (by decide)
  exact ⟨h.2.1, h.1⟩

/-- C8: `SubmitPlan` is atomic with respect to allocations: without a
custom planner, either the whole flattened allocation list of the plan
is recorded in the store under the fresh version, or an error is
returned and the store's allocations are unchanged. -/
theorem submit_plan_atomic (h : SimHarness) (plan : Plan)
    (hpl : h.Planner = none) (result : PlanResult) (h2 : SimHarness)
    (err : Option String)
    (heq : h.SubmitPlan plan = (result, h2, err)) :
    (err = none → h2.State.allocs = h.State.allocs ++
      (flattenPlanAllocs plan).map (fun a => (h.nextIndex, a))) ∧
    (err ≠ none → h2.State.allocs = h.State.allocs) := by
  unfold SimHarness.SubmitPlan at heq
  simp only [hpl] at heq
  unfold SimHarness.NextIndex at heq
  unfold StateStore.UpsertAllocs at heq
  by_cases hfb : h.State.upsertFails h.nextIndex (flattenPlanAllocs plan) = true
  · rw [if_pos hfb] at heq
    obtain ⟨h1, hrest⟩ := (Prod.mk.injEq _ _ _ _).mp heq
    obtain ⟨hh2, herr⟩ := (Prod.mk.injEq _ _ _ _).mp hrest
    subst hh2
    constructor
    · intro hok
      rw [hok] at herr
      cases herr
    · intro _
      rfl
  · rw [if_neg hfb] at heq
    obtain ⟨h1, hrest⟩ := (Prod.mk.injEq _ _ _ _).mp heq
    obtain ⟨hh2, herr⟩ := (Prod.mk.injEq _ _ _ _).mp hrest
    subst hh2
    constructor
    · intro _
      rfl
    · intro hne
      exact absurd herr.symm hne

/-- Witness data for C8: a harness over a store whose upserts fail. -/
def c8harness : SimHarness :=
  { State := { nodes := [], jobs := [], allocs := [], upsertFails := fun _ _ => true }
    Planner := none
    Plans := []
    Evals := []
    CreateEvals := []
    nextIndex := 1 }

/-- Witness data for C8: the submitted plan. -/
def c8plan : Plan :=
  { EvalID := "e8", NodeUpdate := []
    NodeAllocation := [("n1", [c7alloc])], FailedAllocs := [] }

theorem submit_plan_atomic_witness :
    (c8harness.SubmitPlan c8plan).2.1.State.allocs = c8harness.State.allocs ∧
    (c8harness.SubmitPlan c8plan).2.2 ≠ none := by
  have h := submit_plan_atomic c8harness c8plan rfl
    (c8harness.SubmitPlan c8plan).1
    (c8harness.SubmitPlan c8plan).2.1
    (c8harness.SubmitPlan c8plan).2.2 rfl
  exact ⟨h.2 (by decide), by decide⟩

theorem nextIndexRun_range (k : Nat) : ∀ (h : SimHarness),
    h.nextIndex + k ≤ 2 ^ 64 →
    (nextIndexRun h k).1 = List.range' h.nextIndex k := by
  induction k with
  | zero => intro h _; rfl
  | succ k ih =>
      intro h hk
      show h.nextIndex ::
        (nextIndexRun { h with nextIndex := (h.nextIndex + 1) % 2 ^ 64 } k).1 =
        List.range' h.nextIndex (k + 1)
      rcases Nat.lt_or_ge (h.nextIndex + 1) (2 ^ 64) with hlt | hge
      · have hmod : (h.nextIndex + 1) % 2 ^ 64 = h.nextIndex + 1 :=
          Nat.mod_eq_of_lt hlt
        have htail := ih { h with nextIndex := (h.nextIndex + 1) % 2 ^ 64 }
          (by simp only [hmod]; omega)
        rw [htail]
        simp only [hmod]
        rw [List.range'_succ]
      · have hk0 : k = 0 := by omega
        subst hk0
        rw [List.range'_succ]
        rfl

/-- C9: the version counter is strictly monotonically increasing: any
sequence of fewer than 2 to the 64 calls to `NextIndex` on a fresh
harness returns 1, 2, 3, ... in order, each call one greater than the
previous, with no value reused or skipped. -/
theorem next_index_monotonic (k : Nat) (hk : k < 2 ^ 64) :
    (nextIndexRun NewSimHarness k).1 = List.range' 1 k ∧
    List.Chain' (fun a b => b = a + 1) (nextIndexRun NewSimHarness k).1 ∧
    (nextIndexRun NewSimHarness k).1.Nodup := by
  have hrun : (nextIndexRun NewSimHarness k).1 = List.range' 1 k :=
    nextIndexRun_range k NewSimHarness (by show 1 + k ≤ 2 ^ 64; omega)
  have hchain : ∀ (n s : Nat), List.Chain' (fun a b => b = a + 1) (List.range' s n) := by
    intro n
    induction n with
    | zero => intro s; exact List.chain'_nil
    | succ n ih =>
        intro s
        rw [List.range'_succ]
        cases n with
        | zero => simp
        | succ n2 =>
            have htail := ih (s + 1)
            rw [List.range'_succ] at htail
            rw [List.range'_succ, List.chain'_cons]
            exact ⟨rfl, htail⟩
  refine ⟨hrun, by rw [hrun]; exact hchain k 1, by rw [hrun]; exact List.nodup_range' _ _⟩

theorem next_index_monotonic_witness :
    (nextIndexRun NewSimHarness 5).1 = [1, 2, 3, 4, 5] := by
  have h := next_index_monotonic 5 (by decide)
  rw [h.1]
  decide

/-- Witness data for C3: a node with reserved resources. -/
def c3node : Node :=
  { ID := "n1", Datacenter := "dc1", Name := "node1", Attributes := []
    Resources := { CPU := 4000, MemoryMB := 8192, DiskMB := 100000, IOPS := 100 }
    Reserved := { CPU := 50, MemoryMB := 128, DiskMB := 1000, IOPS := 2 } }

/-- Witness data for C3: the parent job of the recorded allocation. -/
def c3job : Job :=
  { ID := "job3", Region := "global", Name := "job3", JobType := JobTypeService
    Priority := 50, Datacenters := ["dc1"], TaskGroups := [{ Name := "web", Count := 1 }] }

/-- Witness data for C3: one allocation recorded against the node. -/
def c3alloc : Allocation :=
  { NodeID := "n1", JobID := "job3", TaskGroup := "web", Job := c3job
    Resources := { CPU := 100, MemoryMB := 256, DiskMB := 300, IOPS := 1 }
    Metrics := { AllocationTime := 1 }
    DesiredDescription := "", DesiredStatus := "run" }

/-- Witness data for C3: a state container recording that allocation. -/
def c3state : StateStore :=
  { nodes := [c3node], jobs := [], allocs := [(2, c3alloc)]
    upsertFails := fun _ _ => false }

theorem getAvailable_correct_witness :
    (getAvailable c3node c3state).CPU =
      c3node.Resources.CPU - c3node.Reserved.CPU -
        ((c3state.AllocsByNode c3node.ID).map (fun a => a.Resources.CPU)).sum ∧
    (getAvailable c3node c3state).CPU = 3850 :=
  ⟨(getAvailable_correct c3node c3state).1.1, by decide⟩

end NomadSim
